import Mathlib

/-!
Verification development for the exoscout backend core: identifier parsing,
catalog resolution, feature assembly, threshold classification, model-artifact
loading and caching, and the response cache decorator.

Python floats are modelled as `PyFloat` (exact rationals plus the special
values `inf`, `-inf`, `nan`); Python scalars as `PyVal`; dictionaries as
association lists; the archive query capability as an explicit function from
query strings to results; exceptions as `Except`/`Option` return values.
Numeric-literal underscores and the display rounding of probabilities are not
modelled (no claim depends on them).
-/

set_option maxRecDepth 4096
set_option linter.unusedVariables false

/-- IEEE-style float value model: finite floats are idealised as exact
rationals; the special values inf, -inf and nan are explicit. -/
inductive PyFloat where
  | finite (q : ℚ)
  | inf
  | neginf
  | nan
deriving DecidableEq

/-- Python scalar values as they occur in catalog rows and feature maps. -/
inductive PyVal where
  | vnone
  | vstr (s : String)
  | vint (n : Int)
  | vfloat (f : PyFloat)
deriving DecidableEq

/-- Python float comparison `a >= b` (false whenever a nan is involved). -/
def pyGe : PyFloat → PyFloat → Bool
  | .nan, _ => false
  | _, .nan => false
  | .inf, _ => true
  | _, .inf => false
  | _, .neginf => true
  | .neginf, _ => false
  | .finite a, .finite b => decide (b ≤ a)

/-- The characters stripped by Python `str.strip()` and matched by the regex
class `\s` (ASCII range). -/
def isPySpace (c : Char) : Bool :=
  c == ' ' || c == '\t' || c == '\n' || c == '\r' || c == Char.ofNat 11 || c == Char.ofNat 12

/-- Python `str.strip()` on a character list. -/
def pyStrip (cs : List Char) : List Char :=
  ((cs.dropWhile isPySpace).reverse.dropWhile isPySpace).reverse

/-- Python `str.lower()` (ASCII range, which covers every use in the source). -/
def strLower (s : String) : String := String.mk (s.toList.map Char.toLower)

/-- Python `str.upper()` (ASCII range, which covers every use in the source). -/
def strUpper (s : String) : String := String.mk (s.toList.map Char.toUpper)

/-- Python `str.startswith(p)`. -/
def strStartsWith (s p : String) : Bool := p.toList.isPrefixOf s.toList

/-- Value of a decimal digit string, most significant first. -/
def digitsToNat (ds : List Char) : Nat :=
  ds.foldl (fun acc c => acc * 10 + (c.toNat - 48)) 0

/-- Consume an optional leading sign; returns (isNegative, rest). -/
def parseSign : List Char → Bool × List Char
  | '+' :: t => (false, t)
  | '-' :: t => (true, t)
  | cs => (false, cs)

/-- Exponent-and-end part of the Python float grammar: either end of input, or
`e`/`E`, an optional sign and a nonempty digit run reaching the end.
`mant` is the integer formed by all mantissa digits and `fracLen` the number of
digits after the decimal point. -/
def parseExpEnd (mant : Nat) (fracLen : Nat) (cs : List Char) : Option ℚ :=
  match cs with
  | [] => some ((mant : ℚ) / (10 : ℚ) ^ fracLen)
  | c :: t =>
    if c == 'e' || c == 'E' then
      let st := parseSign t
      let sp := st.2.span Char.isDigit
      if sp.1.isEmpty || !sp.2.isEmpty then none
      else
        let e : Int := if st.1 then -(digitsToNat sp.1 : Int) else (digitsToNat sp.1 : Int)
        some ((mant : ℚ) / (10 : ℚ) ^ fracLen * (10 : ℚ) ^ e)
    else none

/-- Unsigned part of the Python float grammar: digits with an optional
fractional part (at least one digit overall), then an optional exponent. -/
def parseUnsignedDecimal (cs : List Char) : Option ℚ :=
  let sp := cs.span Char.isDigit
  match sp.2 with
  | '.' :: t =>
    let fp := t.span Char.isDigit
    if sp.1.isEmpty && fp.1.isEmpty then none
    else parseExpEnd (digitsToNat (sp.1 ++ fp.1)) fp.1.length fp.2
  | r =>
    if sp.1.isEmpty then none
    else parseExpEnd (digitsToNat sp.1) 0 r

/-- Python `float(s)` on a string: strip whitespace, optional sign, then either
`inf`/`infinity`/`nan` (case-insensitively) or a decimal literal.
`none` models a raised `ValueError`. -/
def parsePyFloat (s : String) : Option PyFloat :=
  let st := parseSign (pyStrip s.toList)
  let low := String.mk (st.2.map Char.toLower)
  if low = ("inf") || low = ("infinity") then some (if st.1 then .neginf else .inf)
  else if low = ("nan") then some .nan
  else (parseUnsignedDecimal st.2).map (fun q => .finite (if st.1 then -q else q))

/-- Python `int(s)` on a string: strip, optional sign, nonempty digit run.
`none` models a raised `ValueError`. -/
def pyIntOfString (s : String) : Option Int :=
  let st := parseSign (pyStrip s.toList)
  let sp := st.2.span Char.isDigit
  if sp.1.isEmpty || !sp.2.isEmpty then none
  else some (if st.1 then -(digitsToNat sp.1 : Int) else (digitsToNat sp.1 : Int))

/-- Python `float(value)` on an arbitrary scalar: numbers convert, strings are
parsed, `None` raises (`none` here models the raised error). -/
def pyFloatOfVal : PyVal → Option PyFloat
  | .vnone => none
  | .vstr s => parsePyFloat s
  | .vint n => some (.finite (n : ℚ))
  | .vfloat f => some f

/-- Python `str(value)` restricted to the scalars of this model. Finite floats
are shown as rationals, an idealisation of float repr (no claim reaches it). -/
def pyStr : PyVal → String
  | .vnone => ("None")
  | .vstr s => s
  | .vint n => toString n
  | .vfloat (.finite q) => toString q
  | .vfloat .inf => ("inf")
  | .vfloat .neginf => ("-inf")
  | .vfloat .nan => ("nan")

/-- Case-insensitive literal prefix match; returns the rest of the input. -/
def matchPrefixCI : List Char → List Char → Option (List Char)
  | [], s => some s
  | _ :: _, [] => none
  | p :: ps, c :: cs => if p.toLower == c.toLower then matchPrefixCI ps cs else none

/-- The regex fragment `[-\s]?`: consume one dash or whitespace character when
present (the following character classes are disjoint, so the greedy optional
never needs backtracking). -/
def matchOptSep : List Char → List Char
  | [] => []
  | c :: cs => if c == '-' || isPySpace c then cs else c :: cs

/-- The regex fragment `(\d+(?:\.\d+)?)$`: digits, an optional dot-digits
suffix, then end of input; returns the captured text (suffix preserved). -/
def matchNumDecEnd (cs : List Char) : Option (List Char) :=
  let sp := cs.span Char.isDigit
  if sp.1.isEmpty then none
  else match sp.2 with
    | [] => some sp.1
    | '.' :: t =>
      let fp := t.span Char.isDigit
      if fp.1.isEmpty || !fp.2.isEmpty then none
      else some (sp.1 ++ '.' :: fp.1)
    | _ => none

/-- The regex fragment `(\d+)$`. -/
def matchNumEnd (cs : List Char) : Option (List Char) :=
  let sp := cs.span Char.isDigit
  if sp.1.isEmpty || !sp.2.isEmpty then none else some sp.1

/-- The regex fragment `(\d+)(?:\s*[a-z])?$` under `re.IGNORECASE` (so the
letter class also matches uppercase), as in the Kepler-name pattern. -/
def matchNumLetterEnd (cs : List Char) : Option (List Char) :=
  let sp := cs.span Char.isDigit
  if sp.1.isEmpty then none
  else match sp.2 with
    | [] => some sp.1
    | r =>
      match r.dropWhile isPySpace with
      | [c] => if c.isAlpha then some sp.1 else none
      | _ => none

/-- One alternative pattern: case-insensitive literal word, optionally an
optional separator (`[-\s]?`), then the given numeric tail anchored at the
end of input. -/
def withPre (lit : String) (useSep : Bool) (tail : List Char → Option (List Char))
    (s : List Char) : Option (List Char) :=
  match matchPrefixCI lit.toList s with
  | none => none
  | some rest => tail (if useSep then matchOptSep rest else rest)

/-- Embeds `detect_mission_and_id` from services/nasa_api.py: strip the target, then
try the pattern families in order TOI, KOI, K2, TIC, Kepler, each family being
an ordered list of alternatives; the first match wins. Returns
(mission, captured id, stripped original target); `none` models the raised
`ValueError` for unrecognised formats. -/
def detect_mission_and_id (target : String) : Option (String × String × String) :=
  let s := pyStrip target.toList
  let orig := String.mk s
  match (withPre ("TOI") true matchNumDecEnd s).orElse (fun _ => matchNumDecEnd s) with
  | some g => some (("TESS"), String.mk g, orig)
  | none =>
  match (withPre ("KOI") true matchNumDecEnd s).orElse
      (fun _ => withPre ("K") false matchNumDecEnd s) with
  | some g => some (("Kepler"), String.mk g, orig)
  | none =>
  match (withPre ("K2") true matchNumDecEnd s).orElse
      (fun _ => withPre ("EPIC") true matchNumEnd s) with
  | some g => some (("K2"), String.mk g, orig)
  | none =>
  match (withPre ("TIC") true matchNumEnd s).orElse
      (fun _ => withPre ("TESS") true matchNumEnd s) with
  | some g => some (("TESS"), String.mk g, orig)
  | none =>
  match (withPre ("KIC") true matchNumEnd s).orElse
      (fun _ => withPre ("Kepler") true matchNumLetterEnd s) with
  | some g => some (("Kepler"), String.mk g, orig)
  | none => none

/-- A catalog row returned by the archive: column name to scalar value. -/
abbrev Row := List (String × PyVal)

/-- Result of one archive TAP query: rows on success, `fail` when the call
itself fails at the transport level (raising `NASAAPIError`). -/
inductive TapResult where
  | rows (rs : List Row)
  | fail (msg : String)

/-- The archive query capability consumed by the resolvers. -/
abbrev Tap := String → TapResult

/-- The single-quote character, used when assembling TAP query strings. -/
def squo : String := String.singleton (Char.ofNat 39)

/-- The format spec `{koi_id:0>8}`: left-pad with zeros to width 8. -/
def padZeros8 (s : String) : String :=
  if s.length < 8 then String.mk (List.replicate (8 - s.length) '0') ++ s else s

/-- The first KOI lookup query, keyed by zero-padded KOI name `K########`. -/
def koiQueryPadded (koi_id : String) : String :=
  ("select * from cumulative where kepoi_name=") ++ squo ++ ("K") ++ padZeros8 koi_id ++ squo

/-- The fallback KOI lookup query with the unpadded id as a literal match. -/
def koiQueryLiteral (koi_id : String) : String :=
  ("select * from cumulative where kepoi_name=") ++ squo ++ koi_id ++ squo

/-- Embeds `resolve_koi_to_kepid` from services/nasa_api.py, with the query capability
passed explicitly. Returns the result together with the list of queries that
were issued (for the retry-count property). `Except.error` carries the message
of the raised `NASAAPIError`. -/
def resolve_koi_to_kepid (tap : Tap) (koi_id : String) :
    Except String Row × List String :=
  let q1 := koiQueryPadded koi_id
  match tap q1 with
  | .fail m => (.error m, [q1])
  | .rows (r :: _) => (.ok r, [q1])
  | .rows [] =>
    let q2 := koiQueryLiteral koi_id
    match tap q2 with
    | .fail m => (.error m, [q1, q2])
    | .rows (r :: _) => (.ok r, [q1, q2])
    | .rows [] => (.error (("KOI ") ++ koi_id ++ (" not found")), [q1, q2])

/-- Embeds `resolve_toi_to_tic` from services/nasa_api.py. -/
def resolve_toi_to_tic (tap : Tap) (toi_id : String) : Except String Row :=
  match tap (("select * from toi where toi=") ++ toi_id) with
  | .fail m => .error m
  | .rows [] => .error (("TOI ") ++ toi_id ++ (" not found"))
  | .rows (r :: _) => .ok r

/-- Embeds `get_tess_features` from services/nasa_api.py (called with an int id by
the predict router). -/
def get_tess_features (tap : Tap) (tic_id : Int) : Except String Row :=
  match tap (("select * from toi where tid=") ++ toString tic_id) with
  | .fail m => .error m
  | .rows [] => .error (("TIC ") ++ toString tic_id ++ (" not found in TOI table"))
  | .rows (r :: _) => .ok r

/-- Embeds `get_kepler_features` from services/nasa_api.py. -/
def get_kepler_features (tap : Tap) (kepid : Int) : Except String Row :=
  match tap (("select * from cumulative where kepid=") ++ toString kepid) with
  | .fail m => .error m
  | .rows [] => .error (("Kepler ID ") ++ toString kepid ++ (" not found"))
  | .rows (r :: _) => .ok r

/-- Embeds `get_k2_features` from services/nasa_api.py. -/
def get_k2_features (tap : Tap) (epic_id : Int) : Except String Row :=
  match tap (("select * from k2targets where epic_number=") ++ toString epic_id) with
  | .fail m => .error m
  | .rows [] => .error (("EPIC ") ++ toString epic_id ++ (" not found"))
  | .rows (r :: _) => .ok r

/-- The null-likeness test on a raw feature value from
`ExoplanetClassifier.prepare_features`: Python
`value is None or value == "" or (isinstance(value, str) and value.lower() in
[nan, null])` (only strings compare equal to the empty string). -/
def isNullLike (v : PyVal) : Bool :=
  match v with
  | .vnone => true
  | .vstr s => s == ("") || strLower s == ("nan") || strLower s == ("null")
  | _ => false

/-- Per-value body of the `prepare_features` loop: null-like values become the
sentinel 0.0; otherwise `float(value)` is attempted and a conversion failure
falls back to the sentinel (the source catches ValueError/TypeError and logs a
warning). -/
def coerceFeatureVal (v : PyVal) : PyFloat :=
  if isNullLike v then .finite 0
  else
    match pyFloatOfVal v with
    | some f => f
    | none => .finite 0

/-- Embeds `ExoplanetClassifier.prepare_features` from models/ml_models.py: iterate
the feature order (not the raw mapping); names present in the mapping go
through `coerceFeatureVal`, absent names get the sentinel 0.0. Total by
construction — the source's only failure paths are caught inside the loop. -/
def prepare_features (feature_order : List String) (features : List (String × PyVal)) :
    List PyFloat :=
  match feature_order with
  | [] => []
  | name :: rest =>
    (match features.lookup name with
     | some v => coerceFeatureVal v
     | none => .finite 0) :: prepare_features rest features

/-- The loaded classifier artifact of models/ml_models.py: an opaque calibrated
scorer, the ordered feature-name list, and the decision threshold. -/
structure ClassifierArtifact where
  mission : String
  scorer : List PyFloat → PyFloat
  feature_order : List String
  threshold : PyFloat

/-- The result dictionary of `ExoplanetClassifier.predict`. -/
structure PredictionResult where
  mission : String
  probability : PyFloat
  classification : String
  threshold : PyFloat
  features_used : Nat
  features_available : Nat
deriving DecidableEq

/-- Python `len([f for f in feature_order if f in features])`. -/
def countAvailable (order : List String) (features : List (String × PyVal)) : Nat :=
  (order.filter (fun f => (features.lookup f).isSome)).length

/-- Embeds `ExoplanetClassifier.predict` from models/ml_models.py: assemble the
vector, score it, and classify with the non-strict `probability >= threshold`
comparison. -/
def classifierPredict (a : ClassifierArtifact) (features : List (String × PyVal)) :
    PredictionResult :=
  let v := prepare_features a.feature_order features
  let probability := a.scorer v
  let classification :=
    if pyGe probability a.threshold then ("CONFIRMED") else ("FALSE_POSITIVE")
  { mission := a.mission, probability := probability, classification := classification,
    threshold := a.threshold, features_used := a.feature_order.length,
    features_available := countAvailable a.feature_order features }

/-- Per-value body of the `clean_features_for_mission` loop: strings that parse
as floats are replaced by the parsed number, everything else is kept. -/
def cleanValue (v : PyVal) : PyVal :=
  match v with
  | .vstr s =>
    match parsePyFloat s with
    | some f => .vfloat f
    | none => .vstr s
  | _ => v

/-- Embeds `clean_features_for_mission` from services/nasa_api.py: drop entries whose
value is `None` or the empty string, convert numeric strings to floats, keep
everything else unchanged. The `mission` argument is unused by the source body
as well. -/
def clean_features_for_mission (features : List (String × PyVal)) (mission : String) :
    List (String × PyVal) :=
  match features with
  | [] => []
  | (k, v) :: rest =>
    if v = .vnone || v = .vstr ("") then clean_features_for_mission rest mission
    else (k, cleanValue v) :: clean_features_for_mission rest mission

/-- The two serialisation shapes of a stored decision threshold: a mapping
(Python dict) or a bare value to be passed through `float()`. -/
inductive ThresholdData where
  | tdict (m : List (String × PyVal))
  | tval (v : PyVal)
deriving DecidableEq

/-- Contents of one model artifact file, as deserialised: the model blob is
opaque (tagged by a number), the feature file holds a name list, the threshold
file holds a threshold datum; `fcorrupt` is a file whose deserialisation
raises. -/
inductive FileData where
  | fmodel (id : Nat)
  | ffeatures (fs : List String)
  | fthreshold (t : ThresholdData)
  | fcorrupt
deriving DecidableEq

/-- The filesystem seen by the model loader: path to file contents, `none` for
an absent file. -/
abbrev ModelFS := String → Option FileData

/-- The `MODELS` path table of services/model.py. -/
def MODELS (mission : String) : Option (String × String × String) :=
  if mission = ("TESS") then
    some (("models/toi_model.calibrated.pkl"), ("models/feature_order.pkl"),
      ("models/decision_threshold.pkl"))
  else if mission = ("K2") then
    some (("models/k2_model.calibrated.pkl"), ("models/k2_feature_order.pkl"),
      ("models/k2_threshold.pkl"))
  else if mission = ("KEPLER") then
    some (("models/koi_model.calibrated.pkl"), ("models/koi_feature_order.pkl"),
      ("models/koi_threshold.pkl"))
  else none

/-- The error channel of `get_model_info`: an unsupported mission raises
`ValueError` before the loading block, every loading failure is re-raised as
`ModelError`. -/
inductive LoadErr where
  | valueError (msg : String)
  | modelError (msg : String)
deriving DecidableEq

/-- The dictionary returned by `get_model_info`. -/
structure ModelInfo where
  model : FileData
  features : List String
  threshold : PyVal
deriving DecidableEq

/-- Threshold normalisation from services/model.py lines 84-87: a dict is read
through `.get(tau, .get(threshold, 0.5))` (the raw stored value, no
conversion), anything else goes through `float(...)`; `none` models a raised
conversion error, which the surrounding handler turns into `ModelError`. -/
def thresholdFromData : ThresholdData → Option PyVal
  | .tdict m =>
    some (match m.lookup ("tau") with
      | some v => v
      | none =>
        match m.lookup ("threshold") with
        | some v => v
        | none => .vfloat (.finite (1 / 2)))
  | .tval v => (pyFloatOfVal v).map .vfloat

/-- The `except Exception` wrapper message of `get_model_info`. -/
def wrapLoadMsg (mission msg : String) : String :=
  ("Failed to load model for ") ++ mission ++ (": ") ++ msg

/-- The uncached body of `get_model_info` from services/model.py: upper-case
the mission, look up the path table (`ValueError` if unsupported), then load
model, feature order and threshold in that order, failing with `ModelError` on
the first absent or unreadable file. Also returns the list of file paths that
were accessed. Loading a non-list feature file or a non-threshold threshold
file errors as well (the source would raise while using the loaded object). -/
def get_model_info_body (fs : ModelFS) (mission : String) :
    Except LoadErr ModelInfo × List String :=
  let m := strUpper mission
  match MODELS m with
  | none => (.error (.valueError (("Mission ") ++ m ++ (" not supported"))), [])
  | some (pm, pf, pt) =>
    match fs pm with
    | none => (.error (.modelError (wrapLoadMsg m (("Model file not found: ") ++ pm))), [pm])
    | some .fcorrupt =>
      (.error (.modelError (wrapLoadMsg m (("Unreadable model file: ") ++ pm))), [pm])
    | some mdl =>
      match fs pf with
      | none =>
        (.error (.modelError (wrapLoadMsg m (("Features file not found: ") ++ pf))), [pm, pf])
      | some (.ffeatures feats) =>
        match fs pt with
        | none =>
          (.error (.modelError (wrapLoadMsg m (("Threshold file not found: ") ++ pt))),
            [pm, pf, pt])
        | some (.fthreshold td) =>
          match thresholdFromData td with
          | some tau => (.ok { model := mdl, features := feats, threshold := tau }, [pm, pf, pt])
          | none =>
            (.error (.modelError (wrapLoadMsg m (("Bad threshold file: ") ++ pt))),
              [pm, pf, pt])
        | some _ =>
          (.error (.modelError (wrapLoadMsg m (("Bad threshold file: ") ++ pt))), [pm, pf, pt])
      | some _ =>
        (.error (.modelError (wrapLoadMsg m (("Bad features file: ") ++ pf))), [pm, pf])

/-- The `lru_cache(maxsize=3)` wrapper around `get_model_info`: the cache is
keyed by the argument string as passed (the upper-casing happens inside the
body), most-recently-used first, capped at three entries; exceptions are not
cached. Returns (result, new cache state, file paths read). -/
def get_model_info (fs : ModelFS) (cache : List (String × ModelInfo)) (mission : String) :
    Except LoadErr ModelInfo × List (String × ModelInfo) × List String :=
  match cache.lookup mission with
  | some info => (.ok info, (mission, info) :: cache.filter (fun p => p.1 != mission), [])
  | none =>
    match get_model_info_body fs mission with
    | (.ok info, reads) => (.ok info, ((mission, info) :: cache).take 3, reads)
    | (.error e, reads) => (.error e, cache, reads)

/-- The response-shape of the resolve endpoint (`ResolveResponse`). `ra` and
`dec` default to Python `None`. -/
structure ResolveResponse where
  mission : String
  target : String
  original_target : String
  numeric_id : String
  ra : PyVal
  dec : PyVal
  metadata : List (String × PyVal)
deriving DecidableEq

/-- Build the metadata dict of the resolve endpoint: pair each column with its
`.get` result and drop the pairs whose value is missing or `None`. -/
def mkMeta (pairs : List (String × Option PyVal)) : List (String × PyVal) :=
  pairs.filterMap (fun kv =>
    match kv.2 with
    | some v => if v = .vnone then none else some (kv.1, v)
    | none => none)

/-- Python `row.get(key)` with a default of `None`, as a PyVal. -/
def rowGet (r : Row) (k : String) : PyVal :=
  (r.lookup k).getD .vnone

/-- Embeds `resolve_target` from routers/resolve.py: detect the mission, then resolve
TOI→TIC (only for TOI-prefixed TESS targets) or KOI→KepID (only for K-prefixed
Kepler targets), tolerating archive errors by continuing with the original id.
The error side carries (HTTP status, detail). -/
def resolve_target (tap : Tap) (target : String) : Except (Nat × String) ResolveResponse :=
  match detect_mission_and_id target with
  | none =>
    .error (400, ("Unrecognized target format: ") ++ target ++
      (". Supported formats: TOI-1019.01, K00752.01, TIC 307210830, Kepler-227 b, EPIC 123456789"))
  | some (mission, numeric_id, original_target) =>
    let base : ResolveResponse :=
      { mission := mission, target := target,
        original_target := if original_target = ("") then target else original_target,
        numeric_id := numeric_id, ra := .vnone, dec := .vnone, metadata := [] }
    if mission = ("TESS") then
      if (strStartsWith (strUpper target) ("TOI")) || (strStartsWith (strUpper target) ("TOI-")) then
        match resolve_toi_to_tic tap numeric_id with
        | .ok toi_data =>
          .ok
            { base with
              numeric_id := (match toi_data.lookup ("tid") with
                | some v => pyStr v
                | none => numeric_id),
              ra := rowGet toi_data ("ra"), dec := rowGet toi_data ("dec"),
              metadata := mkMeta
                [(("toi"), toi_data.lookup ("toi")),
                 (("tid"), toi_data.lookup ("tid")),
                 (("tfopwg_disp"), toi_data.lookup ("tfopwg_disp")),
                 (("pl_orbper"), toi_data.lookup ("pl_orbper")),
                 (("pl_rade"), toi_data.lookup ("pl_rade")),
                 (("st_tmag"), toi_data.lookup ("st_tmag")),
                 (("st_teff"), toi_data.lookup ("st_teff")),
                 (("st_rad"), toi_data.lookup ("st_rad"))] }
        | .error _ => .ok base
      else .ok base
    else if mission = ("Kepler") then
      if (strStartsWith (strUpper target) ("KOI")) || (strStartsWith (strUpper target) ("KOI-")) ||
          (strStartsWith (strUpper target) ("K")) then
        match (resolve_koi_to_kepid tap numeric_id).1 with
        | .ok koi_data =>
          .ok
            { base with
              numeric_id := (match koi_data.lookup ("kepid") with
                | some v => pyStr v
                | none => numeric_id),
              ra := rowGet koi_data ("ra"), dec := rowGet koi_data ("dec"),
              metadata := mkMeta
                [(("kepoi_name"), koi_data.lookup ("kepoi_name")),
                 (("kepid"), koi_data.lookup ("kepid")),
                 (("koi_disposition"), koi_data.lookup ("koi_disposition")),
                 (("koi_period"), koi_data.lookup ("koi_period")),
                 (("koi_prad"), koi_data.lookup ("koi_prad")),
                 (("koi_kepmag"), koi_data.lookup ("koi_kepmag")),
                 (("koi_steff"), koi_data.lookup ("koi_steff")),
                 (("koi_srad"), koi_data.lookup ("koi_srad"))] }
        | .error _ => .ok base
      else .ok base
    else .ok base

/-- Embeds `get_feature_data` from routers/predict.py: upper-case the mission, parse
the target id as an int (`ValueError` → HTTP 400), dispatch to the mission
feature fetch; an archive error (`NASAAPIError`, including the zero-row case)
is caught by the generic handler and surfaced as HTTP 500. -/
def get_feature_data (tap : Tap) (mission target_id : String) :
    Except (Nat × String) Row :=
  let m := strUpper mission
  match pyIntOfString target_id with
  | none => .error (400, ("Invalid target ID format: ") ++ target_id)
  | some n =>
    let fetch : Except (Nat × String) (Except String Row) :=
      if m = ("TESS") then .ok (get_tess_features tap n)
      else if m = ("KEPLER") then .ok (get_kepler_features tap n)
      else if m = ("K2") then .ok (get_k2_features tap n)
      else .error (400, ("Unsupported mission: ") ++ m)
    match fetch with
    | .error e => .error e
    | .ok (.error msg) => .error (500, ("Failed to retrieve features: ") ++ msg)
    | .ok (.ok r) => .ok r

/-- The response dictionary of the predict endpoint (display rounding of the
probability is not modelled). -/
structure PredictOut where
  mission : String
  target_id : String
  probability : PyFloat
  threshold : PyFloat
  classification : String
  used_features : List (String × PyVal)
deriving DecidableEq

/-- Embeds `predict_exoplanet` from routers/predict.py, from the point where the
model artifact (scorer, feature names, threshold tau) has been loaded: fetch
the feature row, 404 on an empty row, assemble the vector in feature order
with NaN defaults, score, and classify with `proba >= tau`. -/
def predict_exoplanet (tap : Tap) (scorer : List PyVal → PyFloat)
    (features : List String) (tau : PyFloat) (mission target_id : String) :
    Except (Nat × String) PredictOut :=
  let m := strUpper mission
  match get_feature_data tap m target_id with
  | .error e => .error e
  | .ok feature_data =>
    if feature_data.isEmpty then
      .error (404, ("No features found for ") ++ m ++ (" ") ++ target_id)
    else
      let x := features.map (fun f => (feature_data.lookup f).getD (.vfloat .nan))
      let proba := scorer x
      let classification := if pyGe proba tau then ("CONFIRMED") else ("FALSE_POSITIVE")
      .ok
        { mission := m, target_id := target_id, probability := proba, threshold := tau,
          classification := classification,
          used_features := features.map (fun f => (f, rowGet feature_data f)) }

/-- HTTP status of an endpoint outcome, if it is an error. -/
def exceptStatus {α : Type} (r : Except (Nat × String) α) : Option Nat :=
  match r with
  | .error e => some e.1
  | .ok _ => none

/-- An archive stub whose every query returns zero rows. -/
def tapEmpty : Tap := fun _ => .rows []

/-- Embeds `get_cache_key` from utils/cache.py (positional arguments; the sorted
keyword arguments are not separately modelled). -/
def get_cache_key (pre : String) (args : List String) : String :=
  String.intercalate (":") (pre :: args)

/-- The disk cache state: stored key/value pairs. A stored Python `None` is
`PyVal.vnone`. -/
abbrev CacheStore := List (String × PyVal)

/-- Models `diskcache.Cache.get`: the stored value, or Python `None` on a miss. -/
def cacheGet (store : CacheStore) (key : String) : PyVal :=
  (store.lookup key).getD .vnone

/-- Models `diskcache.Cache.set` (the TTL clock is not modelled). -/
def cacheSet (store : CacheStore) (key : String) (v : PyVal) : CacheStore :=
  (key, v) :: store.filter (fun p => p.1 != key)

/-- Embeds `sync_wrapper` inside the `cached` decorator of utils/cache.py: compute the
key, return the cached value when `cache.get` produced something other than
`None`, otherwise execute the function and store its result. Returns
(result, new store, number of underlying calls); the async wrapper has the
identical structure. -/
def sync_wrapper (pre : String) (ttl : Nat) (f : List String → PyVal)
    (store : CacheStore) (args : List String) : PyVal × CacheStore × Nat :=
  let key := get_cache_key pre args
  let r := cacheGet store key
  if r ≠ .vnone then (r, store, 0)
  else
    let res := f args
    (res, cacheSet store key res, 1)

/-- Concrete artifact fixture: a constant scorer at probability one half and
threshold one half. -/
def artifact0 : ClassifierArtifact :=
  { mission := ("TESS"), scorer := fun _ => .finite (1 / 2),
    feature_order := [("pl_orbper")], threshold := .finite (1 / 2) }

/-- Concrete filesystem fixture: all three TESS artifact files present, the
threshold stored as a dict under the `tau` key. -/
def fs0 : ModelFS := fun p =>
  if p = ("models/toi_model.calibrated.pkl") then some (.fmodel 7)
  else if p = ("models/feature_order.pkl") then some (.ffeatures [("pl_orbper")])
  else if p = ("models/decision_threshold.pkl") then
    some (.fthreshold (.tdict [(("tau"), PyVal.vfloat (.finite (7 / 10)))]))
  else none

/-- The model info that `fs0` loads for TESS. -/
def modelInfo0 : ModelInfo :=
  { model := .fmodel 7, features := [("pl_orbper")],
    threshold := PyVal.vfloat (.finite (7 / 10)) }

/-- Whether a load outcome is a raised `ModelError`. -/
def isModelError (r : Except LoadErr ModelInfo) : Bool :=
  match r with
  | .error (.modelError _) => true
  | _ => false

/-- The defaulting map applied per feature name by `prepare_features`. -/
def assembleAt (raw : List (String × PyVal)) (name : String) : PyFloat :=
  match raw.lookup name with
  | some v => coerceFeatureVal v
  | none => .finite 0

theorem prepare_features_eq_map (order : List String) (raw : List (String × PyVal)) :
    prepare_features order raw = order.map (assembleAt raw) := by
  induction order with
  | nil => rfl
  | cons a l ih => simp [prepare_features, List.map, assembleAt, ih]

theorem prepare_features_length (order : List String) (raw : List (String × PyVal)) :
    (prepare_features order raw).length = order.length := by
  rw [prepare_features_eq_map]; exact List.length_map order (assembleAt raw)

theorem prepare_features_get (order : List String) (raw : List (String × PyVal)) (i : Nat) :
    (prepare_features order raw).get? i = (order.get? i).map (assembleAt raw) := by
  rw [prepare_features_eq_map]; exact List.get?_map (assembleAt raw) order i

theorem prepare_features_empty_raw (order : List String) :
    prepare_features order [] = List.replicate order.length (PyFloat.finite 0) := by
  induction order with
  | nil => rfl
  | cons a l ih => simp [prepare_features, List.replicate, ih, List.lookup]

/-- C1: for every supported identifier shape — including lower-case variants —
`detect_mission_and_id` returns the documented (mission, numeric id) pair with
the stripped original target, preserving decimal suffixes verbatim; a bare
number is read as a TESS TOI. -/
theorem C1_parse_supported_shapes :
    detect_mission_and_id ("TOI-1019.01") = some (("TESS"), ("1019.01"), ("TOI-1019.01"))
    ∧ detect_mission_and_id ("1019.01") = some (("TESS"), ("1019.01"), ("1019.01"))
    ∧ detect_mission_and_id ("KOI-752.01") = some (("Kepler"), ("752.01"), ("KOI-752.01"))
    ∧ detect_mission_and_id ("K00752.01") = some (("Kepler"), ("00752.01"), ("K00752.01"))
    ∧ detect_mission_and_id ("TIC 307210830") = some (("TESS"), ("307210830"), ("TIC 307210830"))
    ∧ detect_mission_and_id ("KIC 10666592") = some (("Kepler"), ("10666592"), ("KIC 10666592"))
    ∧ detect_mission_and_id ("toi-1019.01") = some (("TESS"), ("1019.01"), ("toi-1019.01"))
    ∧ detect_mission_and_id ("koi-752.01") = some (("Kepler"), ("752.01"), ("koi-752.01"))
    ∧ detect_mission_and_id ("k00752.01") = some (("Kepler"), ("00752.01"), ("k00752.01"))
    ∧ detect_mission_and_id ("tic 307210830") = some (("TESS"), ("307210830"), ("tic 307210830"))
    ∧ detect_mission_and_id ("kic 10666592") = some (("Kepler"), ("10666592"), ("kic 10666592")) := by
  decide

/-- C2: `predict` classifies CONFIRMED exactly when the scorer output compares
`>=` to the artifact threshold under float semantics, FALSE_POSITIVE otherwise;
at an exact (finite) tie between probability and threshold the result is
CONFIRMED. -/
theorem C2_threshold_boundary :
    ∀ (a : ClassifierArtifact) (features : List (String × PyVal)),
      ((classifierPredict a features).classification = ("CONFIRMED") ↔
        pyGe (a.scorer (prepare_features a.feature_order features)) a.threshold = true)
      ∧ ((classifierPredict a features).classification = ("FALSE_POSITIVE") ↔
        pyGe (a.scorer (prepare_features a.feature_order features)) a.threshold = false)
      ∧ (∀ q : ℚ, a.scorer (prepare_features a.feature_order features) = .finite q →
          a.threshold = .finite q →
          (classifierPredict a features).classification = ("CONFIRMED")) := by
  intro a features
  refine ⟨?_, ?_, ?_⟩
  · cases h : pyGe (a.scorer (prepare_features a.feature_order features)) a.threshold <;>
      simp [classifierPredict, h]
  · cases h : pyGe (a.scorer (prepare_features a.feature_order features)) a.threshold <;>
      simp [classifierPredict, h]
  · intro q h1 h2
    simp [classifierPredict, h1, h2, pyGe]

theorem C2_threshold_boundary_witness :
    artifact0.scorer (prepare_features artifact0.feature_order []) = .finite (1 / 2)
    ∧ artifact0.threshold = .finite (1 / 2)
    ∧ (classifierPredict artifact0 []).classification = ("CONFIRMED") :=
  ⟨rfl, rfl, (C2_threshold_boundary artifact0 []).2.2 (1 / 2) rfl rfl⟩

/-- C3: feature assembly always returns a vector of exactly the feature-order
length, the i-th entry determined by the i-th feature name (present names
coerced, absent names defaulted), and the empty raw mapping yields the all-
sentinel vector. -/
theorem C3_assembly_length_and_order :
    ∀ (order : List String) (raw : List (String × PyVal)),
      (prepare_features order raw).length = order.length
      ∧ (∀ i : Nat, (prepare_features order raw).get? i = (order.get? i).map (assembleAt raw))
      ∧ prepare_features order [] = List.replicate order.length (PyFloat.finite 0) :=
  fun order raw =>
    ⟨prepare_features_length order raw,
     fun i => prepare_features_get order raw i,
     prepare_features_empty_raw order⟩

theorem coerceFeatureVal_eq_zero (v : PyVal)
    (h : v = PyVal.vnone ∨ v = PyVal.vstr ("") ∨
      (∃ s, v = PyVal.vstr s ∧ (strLower s = ("nan") ∨ strLower s = ("null"))) ∨
      pyFloatOfVal v = none) :
    coerceFeatureVal v = PyFloat.finite 0 := by
  rcases h with h | h | ⟨s, rfl, h⟩ | h
  · subst h; rfl
  · subst h; rfl
  · rcases h with h | h <;> simp [coerceFeatureVal, isNullLike, h]
  · by_cases hn : isNullLike v <;> simp [coerceFeatureVal, hn, h]

/-- C4: feature assembly never raises — a looked-up value that is None, the
empty string, a case-insensitive "nan"/"null" string, or unparseable as a
number is replaced by the sentinel 0.0 in the assembled vector. -/
theorem C4_nullish_values_default :
    ∀ (order : List String) (raw : List (String × PyVal)) (i : Nat) (name : String) (v : PyVal),
      order.get? i = some name →
      raw.lookup name = some v →
      (v = PyVal.vnone ∨ v = PyVal.vstr ("") ∨
        (∃ s, v = PyVal.vstr s ∧ (strLower s = ("nan") ∨ strLower s = ("null"))) ∨
        pyFloatOfVal v = none) →
      (prepare_features order raw).get? i = some (PyFloat.finite 0) := by
  intro order raw i name v hi hl hv
  rw [prepare_features_get, hi]
  simp [assembleAt, hl, coerceFeatureVal_eq_zero v hv]

theorem C4_nullish_values_default_witness :
    ([("pl_orbper")] : List String).get? 0 = some ("pl_orbper")
    ∧ ([(("pl_orbper"), PyVal.vstr ("NULL"))] : List (String × PyVal)).lookup ("pl_orbper")
        = some (PyVal.vstr ("NULL"))
    ∧ strLower ("NULL") = ("null")
    ∧ (prepare_features [("pl_orbper")] [(("pl_orbper"), PyVal.vstr ("NULL"))]).get? 0
        = some (PyFloat.finite 0) :=
  ⟨rfl, by decide, by decide,
    C4_nullish_values_default [("pl_orbper")] [(("pl_orbper"), PyVal.vstr ("NULL"))] 0
      ("pl_orbper") (PyVal.vstr ("NULL")) rfl (by decide)
      (Or.inr (Or.inr (Or.inl ⟨("NULL"), rfl, Or.inr (by decide)⟩)))⟩

/-- C5: Kepler KOI resolution first queries with the `K`-prefixed id
zero-padded to width 8 (so 752.01 becomes K00752.01), retries exactly once
with the unpadded literal id when the first query returns zero rows, fails
with the `KOI ... not found` error when both return zero rows, and never
issues more than those two queries. -/
theorem C5_koi_padded_lookup_single_retry :
    ∀ (tap : Tap) (koi_id : String),
      (koiQueryPadded ("752.01") =
        ("select * from cumulative where kepoi_name=") ++ squo ++ ("K00752.01") ++ squo)
      ∧ (∀ r rs, tap (koiQueryPadded koi_id) = .rows (r :: rs) →
          resolve_koi_to_kepid tap koi_id = (.ok r, [koiQueryPadded koi_id]))
      ∧ (tap (koiQueryPadded koi_id) = .rows [] →
          ∀ r rs, tap (koiQueryLiteral koi_id) = .rows (r :: rs) →
          resolve_koi_to_kepid tap koi_id =
            (.ok r, [koiQueryPadded koi_id, koiQueryLiteral koi_id]))
      ∧ (tap (koiQueryPadded koi_id) = .rows [] →
          tap (koiQueryLiteral koi_id) = .rows [] →
          resolve_koi_to_kepid tap koi_id =
            (.error (("KOI ") ++ koi_id ++ (" not found")),
              [koiQueryPadded koi_id, koiQueryLiteral koi_id]))
      ∧ ((resolve_koi_to_kepid tap koi_id).2 = [koiQueryPadded koi_id] ∨
          (resolve_koi_to_kepid tap koi_id).2 =
            [koiQueryPadded koi_id, koiQueryLiteral koi_id]) := by
  intro tap koi_id
  refine ⟨by decide, ?_, ?_, ?_, ?_⟩
  · intro r rs h; simp [resolve_koi_to_kepid, h]
  · intro h1 r rs h2; simp [resolve_koi_to_kepid, h1, h2]
  · intro h1 h2; simp [resolve_koi_to_kepid, h1, h2]
  · cases h1 : tap (koiQueryPadded koi_id) with
    | fail m => left; simp [resolve_koi_to_kepid, h1]
    | rows rs =>
      cases rs with
      | cons r t => left; simp [resolve_koi_to_kepid, h1]
      | nil =>
        cases h2 : tap (koiQueryLiteral koi_id) with
        | fail m => right; simp [resolve_koi_to_kepid, h1, h2]
        | rows rs2 =>
          cases rs2 with
          | nil => right; simp [resolve_koi_to_kepid, h1, h2]
          | cons r t => right; simp [resolve_koi_to_kepid, h1, h2]

theorem C5_koi_padded_lookup_single_retry_witness :
    tapEmpty (koiQueryPadded ("752.01")) = TapResult.rows []
    ∧ tapEmpty (koiQueryLiteral ("752.01")) = TapResult.rows []
    ∧ resolve_koi_to_kepid tapEmpty ("752.01") =
        (.error (("KOI ") ++ ("752.01") ++ (" not found")),
          [koiQueryPadded ("752.01"), koiQueryLiteral ("752.01")]) :=
  ⟨rfl, rfl, (C5_koi_padded_lookup_single_retry tapEmpty ("752.01")).2.2.2.1 rfl rfl⟩



/-- C6 (amended): for the identifier TIC 307210830 the resolve endpoint skips
the TOI lookup entirely (it is only attempted for TOI-prefixed targets) and
returns the original numeric id with no metadata; when the feature lookup for
that TIC returns zero rows, the predict endpoint fails — no silent all-default
prediction — but with an HTTP 500 wrapping the archive not-found message, not
with a 404. -/
theorem C6_tic_zero_rows_fails_with_500 :
    resolve_target tapEmpty ("TIC 307210830") =
      Except.ok
        { mission := ("TESS"), target := ("TIC 307210830"),
          original_target := ("TIC 307210830"), numeric_id := ("307210830"),
          ra := PyVal.vnone, dec := PyVal.vnone, metadata := [] }
    ∧ predict_exoplanet tapEmpty (fun x => PyFloat.finite 0) [] (PyFloat.finite (1 / 2))
        ("TESS") ("307210830") =
      Except.error
        (500, ("Failed to retrieve features: TIC 307210830 not found in TOI table")) :=
  ⟨rfl, rfl⟩

/-- C6 counterexample to the claim as stated: in the zero-row scenario the
predict endpoint surfaces HTTP status 500 (the generic feature-retrieval
failure), not the 404 NotFound channel the endpoint reserves for an empty
feature mapping. -/
theorem C6_predict_status_counterexample :
    exceptStatus (predict_exoplanet tapEmpty (fun x => PyFloat.finite 0) []
        (PyFloat.finite (1 / 2)) ("TESS") ("307210830")) = some 500
    ∧ exceptStatus (predict_exoplanet tapEmpty (fun x => PyFloat.finite 0) []
        (PyFloat.finite (1 / 2)) ("TESS") ("307210830")) ≠ some 404 :=
  ⟨rfl, by decide⟩

/-- C7: artifact loading tolerates both threshold-serialisation shapes — a
mapping is read through its `tau` key, then its `threshold` key, the stored
value taken as is; a bare number goes through float conversion — and loading
succeeds on both. -/
theorem C7_threshold_shapes :
    ∀ (fs : ModelFS) (mission pm pf pt : String) (mdl : FileData) (feats : List String)
      (td : ThresholdData),
      MODELS (strUpper mission) = some (pm, pf, pt) →
      fs pm = some mdl → mdl ≠ FileData.fcorrupt →
      fs pf = some (FileData.ffeatures feats) →
      fs pt = some (FileData.fthreshold td) →
      ((∀ m v, td = ThresholdData.tdict m → m.lookup ("tau") = some v →
          (get_model_info_body fs mission).1 =
            .ok { model := mdl, features := feats, threshold := v })
      ∧ (∀ m v, td = ThresholdData.tdict m → m.lookup ("tau") = none →
          m.lookup ("threshold") = some v →
          (get_model_info_body fs mission).1 =
            .ok { model := mdl, features := feats, threshold := v })
      ∧ (∀ v f, td = ThresholdData.tval v → pyFloatOfVal v = some f →
          (get_model_info_body fs mission).1 =
            .ok { model := mdl, features := feats, threshold := PyVal.vfloat f })) := by
  intro fs mission pm pf pt mdl feats td hM hpm hne hpf hpt
  refine ⟨?_, ?_, ?_⟩
  · intro m v h1 h2
    subst h1
    cases mdl with
    | fcorrupt => exact absurd rfl hne
    | fmodel id =>
      simp [get_model_info_body, hM, hpm, hpf, hpt, thresholdFromData, h2]
    | ffeatures l =>
      simp [get_model_info_body, hM, hpm, hpf, hpt, thresholdFromData, h2]
    | fthreshold t =>
      simp [get_model_info_body, hM, hpm, hpf, hpt, thresholdFromData, h2]
  · intro m v h1 h2 h3
    subst h1
    cases mdl with
    | fcorrupt => exact absurd rfl hne
    | fmodel id =>
      simp [get_model_info_body, hM, hpm, hpf, hpt, thresholdFromData, h2, h3]
    | ffeatures l =>
      simp [get_model_info_body, hM, hpm, hpf, hpt, thresholdFromData, h2, h3]
    | fthreshold t =>
      simp [get_model_info_body, hM, hpm, hpf, hpt, thresholdFromData, h2, h3]
  · intro v f h1 h2
    subst h1
    cases mdl with
    | fcorrupt => exact absurd rfl hne
    | fmodel id =>
      simp [get_model_info_body, hM, hpm, hpf, hpt, thresholdFromData, h2]
    | ffeatures l =>
      simp [get_model_info_body, hM, hpm, hpf, hpt, thresholdFromData, h2]
    | fthreshold t =>
      simp [get_model_info_body, hM, hpm, hpf, hpt, thresholdFromData, h2]

theorem C7_threshold_shapes_witness :
    MODELS (strUpper ("TESS")) =
      some (("models/toi_model.calibrated.pkl"), ("models/feature_order.pkl"),
        ("models/decision_threshold.pkl"))
    ∧ fs0 ("models/toi_model.calibrated.pkl") = some (.fmodel 7)
    ∧ FileData.fmodel 7 ≠ FileData.fcorrupt
    ∧ fs0 ("models/feature_order.pkl") = some (.ffeatures [("pl_orbper")])
    ∧ fs0 ("models/decision_threshold.pkl") =
        some (.fthreshold (.tdict [(("tau"), PyVal.vfloat (.finite (7 / 10)))]))
    ∧ ([(("tau"), PyVal.vfloat (.finite (7 / 10)))] :
        List (String × PyVal)).lookup ("tau") = some (PyVal.vfloat (.finite (7 / 10)))
    ∧ (get_model_info_body fs0 ("TESS")).1 = .ok modelInfo0 :=
  ⟨rfl, rfl, by decide, rfl, rfl, rfl,
    (C7_threshold_shapes fs0 ("TESS") ("models/toi_model.calibrated.pkl")
      ("models/feature_order.pkl") ("models/decision_threshold.pkl") (.fmodel 7)
      [("pl_orbper")] (.tdict [(("tau"), PyVal.vfloat (.finite (7 / 10)))])
      rfl rfl (by decide) rfl rfl).1
      [(("tau"), PyVal.vfloat (.finite (7 / 10)))] (PyVal.vfloat (.finite (7 / 10)))
      rfl rfl⟩

theorem lookup_cons_self {β : Type} (k : String) (v : β) (l : List (String × β)) :
    List.lookup k ((k, v) :: l) = some v := by
  simp [List.lookup]

theorem body_modelError_of_missing (fs : ModelFS) (mission pm pf pt : String)
    (hM : MODELS (strUpper mission) = some (pm, pf, pt))
    (h : fs pm = none ∨ fs pm = some FileData.fcorrupt
      ∨ fs pf = none ∨ fs pf = some FileData.fcorrupt
      ∨ fs pt = none ∨ fs pt = some FileData.fcorrupt) :
    isModelError (get_model_info_body fs mission).1 = true := by
  rcases h with h | h | h | h | h | h
  · simp [get_model_info_body, hM, h, isModelError]
  · simp [get_model_info_body, hM, h, isModelError]
  · cases h1 : fs pm with
    | none => simp [get_model_info_body, hM, h1, isModelError]
    | some fd =>
      cases fd <;> simp [get_model_info_body, hM, h1, h, isModelError]
  · cases h1 : fs pm with
    | none => simp [get_model_info_body, hM, h1, isModelError]
    | some fd =>
      cases fd <;> simp [get_model_info_body, hM, h1, h, isModelError]
  · cases h1 : fs pm with
    | none => simp [get_model_info_body, hM, h1, isModelError]
    | some fd =>
      cases fd with
      | fcorrupt => simp [get_model_info_body, hM, h1, isModelError]
      | fmodel id =>
        cases h2 : fs pf with
        | none => simp [get_model_info_body, hM, h1, h2, isModelError]
        | some fd2 =>
          cases fd2 <;> simp [get_model_info_body, hM, h1, h2, h, isModelError]
      | ffeatures l =>
        cases h2 : fs pf with
        | none => simp [get_model_info_body, hM, h1, h2, isModelError]
        | some fd2 =>
          cases fd2 <;> simp [get_model_info_body, hM, h1, h2, h, isModelError]
      | fthreshold t =>
        cases h2 : fs pf with
        | none => simp [get_model_info_body, hM, h1, h2, isModelError]
        | some fd2 =>
          cases fd2 <;> simp [get_model_info_body, hM, h1, h2, h, isModelError]
  · cases h1 : fs pm with
    | none => simp [get_model_info_body, hM, h1, isModelError]
    | some fd =>
      cases fd with
      | fcorrupt => simp [get_model_info_body, hM, h1, isModelError]
      | fmodel id =>
        cases h2 : fs pf with
        | none => simp [get_model_info_body, hM, h1, h2, isModelError]
        | some fd2 =>
          cases fd2 <;> simp [get_model_info_body, hM, h1, h2, h, isModelError]
      | ffeatures l =>
        cases h2 : fs pf with
        | none => simp [get_model_info_body, hM, h1, h2, isModelError]
        | some fd2 =>
          cases fd2 <;> simp [get_model_info_body, hM, h1, h2, h, isModelError]
      | fthreshold t =>
        cases h2 : fs pf with
        | none => simp [get_model_info_body, hM, h1, h2, isModelError]
        | some fd2 =>
          cases fd2 <;> simp [get_model_info_body, hM, h1, h2, h, isModelError]

/-- C8: the lru-cached loader returns the same artifact on an immediately
repeated load with the same mission string, reading no files the second time;
with any of the three artifact files absent or unreadable an uncached load
raises ModelError; and a failed load leaves the cache unchanged, so other
missions load exactly as before. -/
theorem C8_artifact_cache :
    ∀ (fs : ModelFS) (cache : List (String × ModelInfo)) (mission m2 : String)
      (info : ModelInfo) (e : LoadErr),
      ((get_model_info fs cache mission).1 = .ok info →
        (get_model_info fs (get_model_info fs cache mission).2.1 mission).1 = .ok info
        ∧ (get_model_info fs (get_model_info fs cache mission).2.1 mission).2.2 = [])
      ∧ (cache.lookup mission = none →
          ∀ pm pf pt, MODELS (strUpper mission) = some (pm, pf, pt) →
          (fs pm = none ∨ fs pm = some FileData.fcorrupt
            ∨ fs pf = none ∨ fs pf = some FileData.fcorrupt
            ∨ fs pt = none ∨ fs pt = some FileData.fcorrupt) →
          isModelError (get_model_info fs cache mission).1 = true)
      ∧ ((get_model_info fs cache mission).1 = .error e →
          (get_model_info fs cache mission).2.1 = cache
          ∧ get_model_info fs (get_model_info fs cache mission).2.1 m2 =
              get_model_info fs cache m2) := by
  intro fs cache mission m2 info e
  refine ⟨?_, ?_, ?_⟩
  · intro h
    cases hc : cache.lookup mission with
    | some i =>
      simp [get_model_info, hc] at h
      subst h
      simp [get_model_info, hc, lookup_cons_self]
    | none =>
      rcases hb : get_model_info_body fs mission with ⟨res, reads⟩
      cases res with
      | error err => simp [get_model_info, hc, hb] at h
      | ok i =>
        simp [get_model_info, hc, hb] at h
        subst h
        simp [get_model_info, hc, hb, List.take_succ_cons, lookup_cons_self]
  · intro hc pm pf pt hM hmiss
    have hbody := body_modelError_of_missing fs mission pm pf pt hM hmiss
    rcases hb : get_model_info_body fs mission with ⟨res, reads⟩
    cases res with
    | error err =>
      rw [hb] at hbody
      cases err with
      | valueError msg => simp [isModelError] at hbody
      | modelError msg => simp [get_model_info, hc, hb, isModelError]
    | ok i =>
      rw [hb] at hbody
      simp [isModelError] at hbody
  · intro h
    cases hc : cache.lookup mission with
    | some i => simp [get_model_info, hc] at h
    | none =>
      rcases hb : get_model_info_body fs mission with ⟨res, reads⟩
      cases res with
      | ok i => simp [get_model_info, hc, hb] at h
      | error err =>
        have hcache : (get_model_info fs cache mission).2.1 = cache := by
          simp [get_model_info, hc, hb]
        exact ⟨hcache, by rw [hcache]⟩

theorem C8_artifact_cache_witness :
    (get_model_info fs0 [] ("TESS")).1 = .ok modelInfo0
    ∧ (get_model_info fs0 (get_model_info fs0 [] ("TESS")).2.1 ("TESS")).1 = .ok modelInfo0
    ∧ (get_model_info fs0 (get_model_info fs0 [] ("TESS")).2.1 ("TESS")).2.2 = [] := by
  have h1 : (get_model_info fs0 [] ("TESS")).1 = .ok modelInfo0 := rfl
  have h2 := (C8_artifact_cache fs0 [] ("TESS") ("TESS") modelInfo0 (.valueError (""))).1 h1
  exact ⟨h1, h2.1, h2.2⟩

/-- C9: a wrapped function that returns None is re-executed by the cache
wrapper on every call — the stored None is indistinguishable from a miss, so
None results are never served from the cache. -/
theorem C9_none_results_never_cached :
    ∀ (pre : String) (ttl : Nat) (f : List String → PyVal) (store : CacheStore)
      (args : List String),
      f args = PyVal.vnone →
      cacheGet store (get_cache_key pre args) = PyVal.vnone →
      ((sync_wrapper pre ttl f store args).1 = PyVal.vnone
       ∧ (sync_wrapper pre ttl f store args).2.2 = 1
       ∧ (sync_wrapper pre ttl f (sync_wrapper pre ttl f store args).2.1 args).1 = PyVal.vnone
       ∧ (sync_wrapper pre ttl f (sync_wrapper pre ttl f store args).2.1 args).2.2 = 1) := by
  intro pre ttl f store args hf hc
  have hset : cacheGet (cacheSet store (get_cache_key pre args) PyVal.vnone)
      (get_cache_key pre args) = PyVal.vnone := by
    simp [cacheGet, cacheSet, List.lookup]
  have e1 : sync_wrapper pre ttl f store args =
      (PyVal.vnone, cacheSet store (get_cache_key pre args) PyVal.vnone, 1) := by
    simp [sync_wrapper, hc, hf]
  have e2 : sync_wrapper pre ttl f
      (cacheSet store (get_cache_key pre args) PyVal.vnone) args =
      (PyVal.vnone,
        cacheSet (cacheSet store (get_cache_key pre args) PyVal.vnone)
          (get_cache_key pre args) PyVal.vnone, 1) := by
    simp [sync_wrapper, hset, hf]
  rw [e1]
  exact ⟨rfl, rfl, by rw [e2], by rw [e2]⟩

theorem C9_none_results_never_cached_witness :
    ((fun (a : List String) => PyVal.vnone) []) = PyVal.vnone
    ∧ cacheGet [] (get_cache_key ("nasa_tap_query") []) = PyVal.vnone
    ∧ (sync_wrapper ("nasa_tap_query") 3600 (fun a => PyVal.vnone) [] []).1 = PyVal.vnone
    ∧ (sync_wrapper ("nasa_tap_query") 3600 (fun a => PyVal.vnone) [] []).2.2 = 1
    ∧ (sync_wrapper ("nasa_tap_query") 3600 (fun a => PyVal.vnone)
        (sync_wrapper ("nasa_tap_query") 3600 (fun a => PyVal.vnone) [] []).2.1 []).1
        = PyVal.vnone
    ∧ (sync_wrapper ("nasa_tap_query") 3600 (fun a => PyVal.vnone)
        (sync_wrapper ("nasa_tap_query") 3600 (fun a => PyVal.vnone) [] []).2.1 []).2.2 = 1 := by
  have h := C9_none_results_never_cached ("nasa_tap_query") 3600
    (fun a => PyVal.vnone) [] [] rfl rfl
  exact ⟨rfl, rfl, h.1, h.2.1, h.2.2.1, h.2.2.2⟩

theorem clean_features_eq_filterMap (features : List (String × PyVal)) (mission : String) :
    clean_features_for_mission features mission =
      features.filterMap (fun kv =>
        if kv.2 = PyVal.vnone || kv.2 = PyVal.vstr ("") then none
        else some (kv.1, cleanValue kv.2)) := by
  induction features with
  | nil => rfl
  | cons a l ih =>
    rcases a with ⟨k, v⟩
    by_cases h1 : v = PyVal.vnone
    · simp [clean_features_for_mission, List.filterMap_cons, h1, ih]
    · by_cases h2 : v = PyVal.vstr ("") <;>
        simp [clean_features_for_mission, List.filterMap_cons, h1, h2, ih]

theorem clean_features_keys (features : List (String × PyVal)) (mission : String) :
    (clean_features_for_mission features mission).map Prod.fst =
      (features.filter (fun kv =>
        !(kv.2 = PyVal.vnone || kv.2 = PyVal.vstr ("")))).map Prod.fst := by
  induction features with
  | nil => rfl
  | cons a l ih =>
    rcases a with ⟨k, v⟩
    by_cases h1 : v = PyVal.vnone
    · simp [clean_features_for_mission, List.filter_cons, h1, ih]
    · by_cases h2 : v = PyVal.vstr ("") <;>
        simp [clean_features_for_mission, List.filter_cons, h1, h2, ih]

/-- C10: feature cleaning keeps exactly the entries whose value is neither
None nor the empty string; kept numeric strings are replaced by their parsed
float value, every other kept value (including non-numeric non-empty strings)
is unchanged; the function is total. -/
theorem C10_clean_features :
    ∀ (features : List (String × PyVal)) (mission : String),
      clean_features_for_mission features mission =
        features.filterMap (fun kv =>
          if kv.2 = PyVal.vnone || kv.2 = PyVal.vstr ("") then none
          else some (kv.1, cleanValue kv.2))
      ∧ (clean_features_for_mission features mission).map Prod.fst =
        (features.filter (fun kv =>
          !(kv.2 = PyVal.vnone || kv.2 = PyVal.vstr ("")))).map Prod.fst
      ∧ (∀ s f, parsePyFloat s = some f → cleanValue (PyVal.vstr s) = PyVal.vfloat f)
      ∧ (∀ s, parsePyFloat s = none → cleanValue (PyVal.vstr s) = PyVal.vstr s)
      ∧ (∀ v, (∀ s, v ≠ PyVal.vstr s) → cleanValue v = v) := by
  intro features mission
  refine ⟨clean_features_eq_filterMap features mission,
    clean_features_keys features mission, ?_, ?_, ?_⟩
  · intro s f h; simp [cleanValue, h]
  · intro s h; simp [cleanValue, h]
  · intro v h
    cases v with
    | vstr s => exact absurd rfl (h s)
    | vnone => rfl
    | vint n => rfl
    | vfloat f => rfl

theorem parse_one_point_five : parsePyFloat ("1.5") = some (PyFloat.finite (3 / 2)) := by
  have h : parsePyFloat ("1.5") = some (PyFloat.finite ((15 : ℚ) / 10 ^ 1)) := rfl
  rw [h]
  norm_num

theorem clean_example_row :
    clean_features_for_mission
      [(("kepid"), PyVal.vnone), (("koi_period"), PyVal.vstr ("1.5"))] ("Kepler") =
      [(("koi_period"), PyVal.vfloat (PyFloat.finite (3 / 2)))] := by
  simp [clean_features_for_mission, cleanValue, parse_one_point_five]

theorem C10_clean_features_witness :
    parsePyFloat ("1.5") = some (PyFloat.finite (3 / 2))
    ∧ cleanValue (PyVal.vstr ("1.5")) = PyVal.vfloat (PyFloat.finite (3 / 2))
    ∧ parsePyFloat ("abc") = none
    ∧ cleanValue (PyVal.vstr ("abc")) = PyVal.vstr ("abc")
    ∧ clean_features_for_mission
        [(("kepid"), PyVal.vnone), (("koi_period"), PyVal.vstr ("1.5"))] ("Kepler") =
        [(("koi_period"), PyVal.vfloat (PyFloat.finite (3 / 2)))] :=
  ⟨parse_one_point_five,
    (C10_clean_features [] ("Kepler")).2.2.1 ("1.5") (PyFloat.finite (3 / 2))
      parse_one_point_five,
    by decide,
    (C10_clean_features [] ("Kepler")).2.2.2.1 ("abc") (by decide),
    clean_example_row⟩
